import Mathlib

/-!
Verification development for the Aquaroot farm-monitoring service.

The definitions below are a shallow embedding of the Python sources under
`app/` (services/llm.py, utils/helpers.py, api/sensors.py, schemas/models.py).
Python floats are modelled as rationals, Python dicts as insertion-ordered
association lists, and raised exceptions as `Except`/`Option` values.
External collaborators (the OpenAI/Gemini SDK calls, `json.loads`,
`datetime.fromisoformat`, the pickled sklearn models and scalers) are
modelled as explicit oracle parameters, since their code is not part of the
repository; everything else follows the Python sources line by line.
-/

namespace Aquaroot

/-- Timestamp abstraction: the only attributes the code reads from a parsed
`datetime` are `hour`, `timetuple().tm_yday` and `month`. -/
structure Ts where
  hour : Nat
  tm_yday : Nat
  month : Nat
deriving DecidableEq, Repr

/-- Dynamic Python/JSON value, as needed by the pipeline: strings, ints,
floats (as rationals), booleans, `None`, lists, dicts and `datetime`
objects. -/
inductive PyVal where
  | str (s : String)
  | intv (n : Int)
  | floatv (q : ℚ)
  | boolv (b : Bool)
  | null
  | list (vs : List PyVal)
  | dict (kvs : List (String × PyVal))
  | dt (t : Ts)
deriving Repr

/-- Exception classes that the feature-extraction code can raise. -/
inductive PErr where
  | typeErr
  | zeroDivErr
  | valueErr
  | attrErr
deriving DecidableEq, Repr

/-- Python `str(float)` rendering, restricted to the decimal fragment the
claims exercise: an integral rational renders as `n.0`; non-integral values
are rendered as fractions (only ever used inside log-style message strings
that no claim inspects at non-integral values). -/
def pyFloatStr (q : ℚ) : String :=
  if q.den = 1 then toString q.num ++ ".0" else toString q

mutual

/-- Python `repr` of a value (escape sequences are not modelled; the inputs
of the claims contain no characters needing escapes). -/
def pyValRepr : PyVal → String
  | .str s => "\x27" ++ s ++ "\x27"
  | .intv n => toString n
  | .floatv q => pyFloatStr q
  | .boolv b => if b then "True" else "False"
  | .null => "None"
  | .list vs => "[" ++ String.intercalate ", " (pyValReprList vs) ++ "]"
  | .dict kvs =>
      "\x7b" ++ String.intercalate ", " (pyValReprKVs kvs) ++ "\x7d"
  | .dt _ => "datetime"

/-- Renders each element of a Python list for `pyValRepr`. -/
def pyValReprList : List PyVal → List String
  | [] => []
  | v :: t => pyValRepr v :: pyValReprList t

/-- Renders each key/value pair of a Python dict for `pyValRepr`. -/
def pyValReprKVs : List (String × PyVal) → List String
  | [] => []
  | (k, v) :: t => ("\x27" ++ k ++ "\x27: " ++ pyValRepr v) :: pyValReprKVs t

end

/-- Python `str(value)`: identity on strings, `repr`-like elsewhere. -/
def pyValStr : PyVal → String
  | .str s => s
  | v => pyValRepr v

/-- Python truthiness for the value shapes that reach the normalizer. -/
def pyTruthy : PyVal → Bool
  | .str s => !s.isEmpty
  | .intv n => n ≠ 0
  | .floatv q => q ≠ 0
  | .boolv b => b
  | .null => false
  | .list vs => !vs.isEmpty
  | .dict kvs => !kvs.isEmpty
  | .dt _ => true

/-- Dictionary lookup (`d.get(k)` / `d[k]`), first binding wins as in a
Python dict, which never holds duplicate keys. -/
def pyGet (d : List (String × PyVal)) (k : String) : Option PyVal :=
  match d with
  | [] => none
  | (k2, v) :: t => if k2 = k then some v else pyGet t k

/-- Dictionary update `d[k] = v`: replaces in place, appends if absent,
preserving Python dict insertion order. -/
def dictSet (d : List (String × PyVal)) (k : String) (v : PyVal) :
    List (String × PyVal) :=
  match d with
  | [] => [(k, v)]
  | (k2, v2) :: t => if k2 = k then (k2, v) :: t else (k2, v2) :: dictSet t k v

/-- Index of the first occurrence of `needle` in `hay` (Python `find`,
`some` instead of `-1`). -/
def listFind (needle : List Char) : List Char → Option Nat
  | [] => if needle.isEmpty then some 0 else none
  | c :: t =>
      if needle.isPrefixOf (c :: t) then some 0
      else (listFind needle t).map (· + 1)

/-- Python `hay.find(needle, start)`. -/
def listFindFrom (needle hay : List Char) (start : Nat) : Option Nat :=
  (listFind needle (hay.drop start)).map (· + start)

/-- Index of the last occurrence of `needle` in `hay` (Python `rfind`). -/
def listRFind (needle hay : List Char) : Option Nat :=
  ((List.range (hay.length + 1)).filter
    (fun i => needle.isPrefixOf (hay.drop i))).getLast?

/-- Python slice `cs[a:b]` where `b` may be negative (counted from the
end), as produced by a failed `find` returning `-1`. -/
def pySlice (cs : List Char) (a : Nat) (b : Int) : List Char :=
  let b2 : Int := if b < 0 then (cs.length : Int) + b else b
  (cs.take b2.toNat).drop a

/-- Python `str.strip()` (ASCII-whitespace fragment). -/
def pyStrip (s : String) : String :=
  String.mk
    (((s.toList.dropWhile Char.isWhitespace).reverse.dropWhile
        Char.isWhitespace).reverse)

/-- Python `s.replace(a, repl)` for a single-character pattern, which is
the only shape the code uses (`replace('_', ' ')`, `replace('Z',
'+00:00')`). -/
def charReplace (a : Char) (repl : List Char) : List Char → List Char
  | [] => []
  | c :: t => (if c = a then repl else [c]) ++ charReplace a repl t

/-- The `timestamp.replace('Z', '+00:00')` preprocessing applied before
`datetime.fromisoformat` (helpers.py line 56, line 149). -/
def pyReplaceZ (s : String) : String :=
  String.mk (charReplace 'Z' "+00:00".toList s.toList)

/-!  ### LLMService (app/services/llm.py)

`json.loads` and the two provider SDKs are collaborators outside the
repository, so they appear as oracle parameters: `loads : String → Option
PyVal` (`none` models a raised `JSONDecodeError`), and each provider as
`Option (Except Unit String)` (`none` = client not configured, `.error` =
the completion call raised, `.ok text` = the raw completion text).  The
prompt/context built by `_prepare_*_context` only influences the text sent
to the provider, which the oracle abstracts, so it is not reproduced. -/

/-- JSON extraction step of `LLMService._parse_llm_response` (llm.py lines
345-355): a fenced code block, else the first `\x7b` … last `\x7d` span,
else `none` (the raised `ValueError`). -/
def extract_json_str (content : String) : Option String :=
  let cs := content.toList
  match listFind "```json".toList cs with
  | some i =>
      let json_start := i + 7
      let json_end : Int :=
        match listFindFrom "```".toList cs json_start with
        | some j => (j : Int)
        | none => -1
      some (pyStrip (String.mk (pySlice cs json_start json_end)))
  | none =>
      match listFind ['\x7b'] cs, listFind ['\x7d'] cs with
      | some js, some _ =>
          let json_end : Int :=
            match listRFind ['\x7d'] cs with
            | some j => (j : Int) + 1
            | none => -1
          some (String.mk (pySlice cs js json_end))
      | _, _ => none

/-- Static fallback insight of `LLMService._generate_fallback_insight`
(llm.py lines 398-439); `now` models `datetime.utcnow().isoformat()`. -/
def generate_fallback_insight (insight_type : String) (now : String) :
    List (String × PyVal) :=
  if insight_type = "crop_health" then
    [("insight_type", .str "crop_health_assessment"),
     ("content", .str "Crop health assessment based on sensor data patterns and historical trends."),
     ("recommendations", .list
       [.str "Maintain optimal soil moisture levels",
        .str "Monitor temperature and humidity conditions",
        .str "Regular soil testing recommended"]),
     ("warnings", .list [.str "LLM service unavailable - using fallback assessment"]),
     ("confidence", .floatv (3/5)),
     ("timestamp", .str now)]
  else if insight_type = "yield" then
    [("insight_type", .str "yield_prediction"),
     ("content", .str "Yield prediction based on current sensor data and environmental conditions."),
     ("recommendations", .list
       [.str "Optimize irrigation schedule",
        .str "Monitor crop development stages",
        .str "Consider weather patterns for yield optimization"]),
     ("warnings", .list [.str "LLM service unavailable - using fallback prediction"]),
     ("confidence", .floatv (3/5)),
     ("timestamp", .str now)]
  else
    [("insight_type", .str "irrigation_recommendation"),
     ("content", .str "Based on sensor data analysis, irrigation recommendations are generated using rule-based logic."),
     ("recommendations", .list
       [.str "Monitor soil moisture levels regularly",
        .str "Consider weather conditions before irrigation",
        .str "Avoid over-irrigation to prevent waterlogging"]),
     ("warnings", .list [.str "LLM service unavailable - using fallback recommendations"]),
     ("confidence", .floatv (3/5)),
     ("timestamp", .str now)]

/-- Synthesis of a summary sentence when `content` is absent or blank
(llm.py lines 368-379). -/
def synth_content (parsed : List (String × PyVal)) : List (String × PyVal) :=
  let p1 : List String :=
    match pyGet parsed "current_crop_health" with
    | some v => ["Current crop health score is " ++ pyValStr v ++ "."]
    | none => []
  let p2 : List String :=
    match pyGet parsed "yield_prediction_analysis" with
    | some v => [pyValStr v]
    | none => []
  let summary_parts := p1 ++ p2
  let summary_parts :=
    if summary_parts.isEmpty then [pyValStr (.dict parsed)] else summary_parts
  dictSet parsed "content" (.str (String.intercalate " " summary_parts))

/-- Content normalization of `_parse_llm_response` (llm.py lines 361-379):
a mapping is flattened to one semicolon-joined sentence, an absent/blank
content is synthesized. -/
def normalize_content (parsed : List (String × PyVal)) :
    List (String × PyVal) :=
  match pyGet parsed "content" with
  | some (.dict kvs) =>
      dictSet parsed "content"
        (.str (String.intercalate "; "
          (kvs.map (fun kv =>
            String.mk (charReplace '_' [' '] kv.1.toList) ++ ": " ++
              pyValStr kv.2))))
  | some (.str s) => if pyStrip s = "" then synth_content parsed else parsed
  | _ => synth_content parsed

/-- The three coercion branches of llm.py lines 384-389: a lone string is
wrapped, a list is mapped through `str`, anything else becomes a singleton
or the empty list depending on its truthiness. -/
def coerce_str_list (value : PyVal) : PyVal :=
  match value with
  | .str s => .list [.str s]
  | .list vs => .list (vs.map (fun v => .str (pyValStr v)))
  | v => if pyTruthy v then .list [.str (pyValStr v)] else .list []

/-- Coercion of `recommendations`/`warnings` to lists of strings
(llm.py lines 382-389); a missing key defaults to the empty list. -/
def normalize_listfield (parsed : List (String × PyVal)) (key : String) :
    List (String × PyVal) :=
  dictSet parsed key (coerce_str_list ((pyGet parsed key).getD (.list [])))

/-- `LLMService._parse_llm_response` (llm.py lines 342-396).  A failed
extraction, a failed `json.loads`, or a non-dict parse (whose `.get` would
raise) all hit the `except` and return the static fallback. -/
def parse_llm_response (loads : String → Option PyVal) (content : String)
    (insight_type : String) (now : String) : List (String × PyVal) :=
  match extract_json_str content with
  | none => generate_fallback_insight insight_type now
  | some json_str =>
      match loads json_str with
      | some (.dict parsed) =>
          let parsed := normalize_content parsed
          let parsed := normalize_listfield parsed "recommendations"
          let parsed := normalize_listfield parsed "warnings"
          dictSet parsed "timestamp" (.str now)
      | _ => generate_fallback_insight insight_type now

/-- Shared control flow of `LLMService.generate_irrigation_insight`,
`generate_crop_health_insight` and `generate_yield_insight` (llm.py lines
66-138): primary provider if configured, else secondary if configured,
else static fallback; the enclosing `try/except` turns any provider-call
exception into the static fallback. -/
def llm_generate (insight_type : String) (loads : String → Option PyVal)
    (openai_client gemini_model : Option (Except Unit String))
    (now : String) : List (String × PyVal) :=
  let body : Except Unit (List (String × PyVal)) :=
    match openai_client with
    | some r => r.map (fun text => parse_llm_response loads text insight_type now)
    | none =>
        match gemini_model with
        | some r => r.map (fun text => parse_llm_response loads text insight_type now)
        | none => .ok (generate_fallback_insight insight_type now)
  match body with
  | .ok d => d
  | .error _ => generate_fallback_insight insight_type now

/-- `LLMService.generate_irrigation_insight` (llm.py lines 66-90). -/
def generate_irrigation_insight (loads : String → Option PyVal)
    (openai_client gemini_model : Option (Except Unit String))
    (now : String) : List (String × PyVal) :=
  llm_generate "irrigation" loads openai_client gemini_model now

/-- `LLMService.generate_crop_health_insight` (llm.py lines 92-114). -/
def generate_crop_health_insight (loads : String → Option PyVal)
    (openai_client gemini_model : Option (Except Unit String))
    (now : String) : List (String × PyVal) :=
  llm_generate "crop_health" loads openai_client gemini_model now

/-- `LLMService.generate_yield_insight` (llm.py lines 116-138). -/
def generate_yield_insight (loads : String → Option PyVal)
    (openai_client gemini_model : Option (Except Unit String))
    (now : String) : List (String × PyVal) :=
  llm_generate "yield" loads openai_client gemini_model now

/-!  ### AlertManager (app/utils/helpers.py lines 487-536) -/

/-- One alert record as built by `AlertManager.check_alerts`; `timestamp`
models `datetime.utcnow().isoformat()`. -/
structure Alert where
  type : String
  sensor_type : String
  value : ℚ
  threshold : ℚ
  message : String
  severity : String
  timestamp : String
deriving DecidableEq, Repr

/-- Default `alert_thresholds` from `AlertManager.__init__` (helpers.py
lines 491-496), as an insertion-ordered (sensor_type, min, max) table. -/
def default_alert_thresholds : List (String × ℚ × ℚ) :=
  [("temperature", 5, 35),
   ("humidity", 20, 90),
   ("soil_moisture", 20, 80),
   ("soil_temperature", 5, 30)]

/-- Lookup in a `sensor_type → value` mapping. -/
def qGet (d : List (String × ℚ)) (k : String) : Option ℚ :=
  match d with
  | [] => none
  | (k2, v) :: t => if k2 = k then some v else qGet t k

/-- `AlertManager.check_alerts` (helpers.py lines 498-528): for each
threshold row whose sensor type occurs in the data, a below-min value
appends a `low_threshold`/`warning` alert and an above-max value a
`high_threshold`/`critical` alert. -/
def check_alerts (thresholds : List (String × ℚ × ℚ))
    (sensor_data : List (String × ℚ)) (now : String) : List Alert :=
  thresholds.flatMap (fun row =>
    match qGet sensor_data row.1 with
    | none => []
    | some value =>
        (if value < row.2.1 then
          [{ type := "low_threshold", sensor_type := row.1, value := value,
             threshold := row.2.1,
             message := row.1 ++ " is below minimum threshold",
             severity := "warning", timestamp := now }]
         else []) ++
        (if value > row.2.2 then
          [{ type := "high_threshold", sensor_type := row.1, value := value,
             threshold := row.2.2,
             message := row.1 ++ " is above maximum threshold",
             severity := "critical", timestamp := now }]
         else []))

/-!  ### ModelManager (app/utils/helpers.py lines 173-345)

The pickled sklearn scalers and models are opaque artifacts; they appear
as oracles whose calls may raise (`Except Unit`).  `metadata_features`
models `self.metadata.get('feature_columns', [])`. -/

/-- A loaded scaler: `transform` may raise. -/
def Transformer : Type :=
  List (List PyVal) → Except Unit (List (List PyVal))

/-- A loaded classifier (irrigation model): `predict` returns an array of
numbers, `predict_proba` an optional array of per-class probability
rows. -/
structure PyClassifier where
  predict : List (List PyVal) → Except Unit (List ℚ)
  predict_proba : List (List PyVal) → Except Unit (Option (List (List ℚ)))

/-- A loaded regressor (crop-health / yield model). -/
structure PyRegressor where
  predict : List (List PyVal) → Except Unit (List ℚ)

/-- Python `int(x)` truncation toward zero. -/
def pyInt (q : ℚ) : Int :=
  if 0 ≤ q then ⌊q⌋ else ⌈q⌉

/-- Structured prediction result dict returned by the three
`ModelManager.predict_*` methods. -/
structure Prediction where
  predicted_value : ℚ
  confidence : ℚ
  model_name : String
  features_used : List String
deriving DecidableEq, Repr

/-- `features_used` of the degraded default results (helpers.py lines
224-229 etc.). -/
def default_features_used : List String :=
  ["temperature", "humidity", "soil_moisture", "soil_temperature"]

/-- Body of the `try` block of `ModelManager.predict_irrigation_need`
(helpers.py lines 231-253): scale, predict, take the max class
probability as confidence (`np.max` of an empty row raises). -/
def irrigation_infer (model : PyClassifier) (scaler : Transformer)
    (metadata_features : List String) (features : List (List PyVal)) :
    Except Unit Prediction := do
  let features_scaled ← scaler features
  let prediction_array ← model.predict features_scaled
  let prediction : Int :=
    match prediction_array with
    | [] => 0
    | x :: _ => pyInt x
  let prediction_proba ← model.predict_proba features_scaled
  let confidence : ℚ ←
    match prediction_proba with
    | some rows =>
        match rows with
        | [] => Except.ok (1/2)
        | row :: _ =>
            match row with
            | [] => Except.error ()
            | x :: xs => Except.ok (xs.foldl max x)
    | none => Except.ok (1/2)
  Except.ok
    { predicted_value := (prediction : ℚ), confidence := confidence,
      model_name := "irrigation_model", features_used := metadata_features }

/-- `ModelManager.predict_irrigation_need` (helpers.py lines 220-262):
default result when model or scaler is missing, error result when the
inference body raises. -/
def predict_irrigation_need (model : Option PyClassifier)
    (scaler : Option Transformer) (metadata_features : List String)
    (features : List (List PyVal)) : Prediction :=
  match model, scaler with
  | some m, some sc =>
      match irrigation_infer m sc metadata_features features with
      | .ok p => p
      | .error _ =>
          { predicted_value := 0, confidence := 1/2, model_name := "error",
            features_used := [] }
  | _, _ =>
      { predicted_value := 0, confidence := 1/2, model_name := "default",
        features_used := default_features_used }

/-- Body of the `try` block of `ModelManager.predict_crop_health`
(helpers.py lines 275-290): indexing `[0]` of an empty prediction raises;
confidence is the fixed constant 0.8. -/
def crop_health_infer (model : PyRegressor) (scaler : Transformer)
    (metadata_features : List String) (features : List (List PyVal)) :
    Except Unit Prediction := do
  let features_scaled ← scaler features
  let arr ← model.predict features_scaled
  match arr with
  | [] => Except.error ()
  | prediction :: _ =>
      Except.ok
        { predicted_value := prediction, confidence := 4/5,
          model_name := "crop_health_model", features_used := metadata_features }

/-- `ModelManager.predict_crop_health` (helpers.py lines 264-299). -/
def predict_crop_health (model : Option PyRegressor)
    (scaler : Option Transformer) (metadata_features : List String)
    (features : List (List PyVal)) : Prediction :=
  match model, scaler with
  | some m, some sc =>
      match crop_health_infer m sc metadata_features features with
      | .ok p => p
      | .error _ =>
          { predicted_value := 50, confidence := 1/2, model_name := "error",
            features_used := [] }
  | _, _ =>
      { predicted_value := 50, confidence := 1/2, model_name := "default",
        features_used := default_features_used }

/-- Body of the `try` block of `ModelManager.predict_yield` (helpers.py
lines 312-327). -/
def yield_infer (model : PyRegressor) (scaler : Transformer)
    (metadata_features : List String) (features : List (List PyVal)) :
    Except Unit Prediction := do
  let features_scaled ← scaler features
  let arr ← model.predict features_scaled
  match arr with
  | [] => Except.error ()
  | prediction :: _ =>
      Except.ok
        { predicted_value := prediction, confidence := 4/5,
          model_name := "yield_model", features_used := metadata_features }

/-- `ModelManager.predict_yield` (helpers.py lines 301-336). -/
def predict_yield (model : Option PyRegressor)
    (scaler : Option Transformer) (metadata_features : List String)
    (features : List (List PyVal)) : Prediction :=
  match model, scaler with
  | some m, some sc =>
      match yield_infer m sc metadata_features features with
      | .ok p => p
      | .error _ =>
          { predicted_value := 2000, confidence := 1/2, model_name := "error",
            features_used := [] }
  | _, _ =>
      { predicted_value := 2000, confidence := 1/2, model_name := "default",
        features_used := default_features_used }

/-!  ### DataProcessor.validate_sensor_data (helpers.py lines 17-64)

The input dict is modelled as a record of optional, already-typed fields
(the claims quantify over readings whose `value` is a number, as produced
by the pydantic `SensorData` schema).  `fromiso : String → Bool` is the
oracle for `datetime.fromisoformat` succeeding on the given (already
Z-replaced) string. -/

/-- Raw reading dict as passed to `validate_sensor_data`; a `none` field
models a missing key. -/
structure RawReading where
  sensor_id : Option String
  sensor_type : Option String
  value : Option ℚ
  timestamp : Option PyVal
deriving Repr

/-- `valid_types` from helpers.py line 32. -/
def valid_types : List String :=
  ["dht_temperature", "dht_humidity", "soil_moisture", "soil_temperature"]

/-- The missing-required-field errors collected first (helpers.py lines
23-26), in the fixed field order. -/
def missing_field_errors (d : RawReading) : List String :=
  (if d.sensor_id.isNone then ["Missing required field: sensor_id"] else []) ++
  (if d.sensor_type.isNone then ["Missing required field: sensor_type"] else []) ++
  (if d.value.isNone then ["Missing required field: value"] else []) ++
  (if d.timestamp.isNone then ["Missing required field: timestamp"] else [])

/-- The sensor-type check error (helpers.py lines 32-34). -/
def type_errors (d : RawReading) : List String :=
  let st := d.sensor_type.getD ""
  if st ∈ valid_types then [] else ["Invalid sensor type: " ++ st]

/-- The per-type inclusive range check errors (helpers.py lines 37-51). -/
def range_errors (d : RawReading) : List String :=
  let st := d.sensor_type.getD ""
  let value := d.value.getD 0
  if st = "dht_temperature" then
    if ¬(-40 ≤ value ∧ value ≤ 80) then
      ["Temperature out of range: " ++ pyFloatStr value ++ "°C"]
    else []
  else if st = "dht_humidity" then
    if ¬(0 ≤ value ∧ value ≤ 100) then
      ["Humidity out of range: " ++ pyFloatStr value ++ "%"]
    else []
  else if st = "soil_moisture" then
    if ¬(0 ≤ value ∧ value ≤ 100) then
      ["Soil moisture out of range: " ++ pyFloatStr value ++ "%"]
    else []
  else if st = "soil_temperature" then
    if ¬(-20 ≤ value ∧ value ≤ 60) then
      ["Soil temperature out of range: " ++ pyFloatStr value ++ "°C"]
    else []
  else []

/-- The timestamp format check errors (helpers.py lines 54-62): a string
must parse after Z-replacement, a datetime passes, anything else is
invalid. -/
def timestamp_errors (fromiso : String → Bool) (d : RawReading) :
    List String :=
  match d.timestamp.getD .null with
  | .str s => if fromiso (pyReplaceZ s) then [] else ["Invalid timestamp format"]
  | .dt _ => []
  | _ => ["Invalid timestamp format"]

/-- `DataProcessor.validate_sensor_data` (helpers.py lines 17-64): collect
missing-field errors and return early if any; otherwise append the type,
range and timestamp check errors in order.  The `getD` defaults inside the
checks are never observable because the early return guarantees all four
fields are present there. -/
def validate_sensor_data (fromiso : String → Bool) (d : RawReading) :
    Bool × List String :=
  let errors := missing_field_errors d
  if errors ≠ [] then (false, errors)
  else
    let errors := errors ++ type_errors d
    let errors := errors ++ range_errors d
    let errors := errors ++ timestamp_errors fromiso d
    (errors.isEmpty, errors)

/-!  ### DataProcessor.prepare_features_for_prediction (helpers.py lines
116-170)

`fromisoTs : String → Option Ts` is the `datetime.fromisoformat` oracle
(`none` = raised `ValueError`); `nowTs` models `datetime.utcnow()` used
when the `timestamp` key is absent.  Exceptions the Python code can raise
escape this function uncaught, hence the `Except PErr` result.  The
arithmetic helpers raise `typeErr` whenever an operand is not a number;
Python occasionally raises elsewhere in the same composite expression
(e.g. `str * int` repetition followed by a division `TypeError`), with the
same observable outcome of an uncaught exception. -/

/-- Python `a * b` on dynamic values, numbers only. -/
def pyMul : PyVal → PyVal → Except PErr ℚ
  | .intv a, .intv b => .ok ((a : ℚ) * b)
  | .intv a, .floatv b => .ok ((a : ℚ) * b)
  | .floatv a, .intv b => .ok (a * b)
  | .floatv a, .floatv b => .ok (a * b)
  | _, _ => .error .typeErr

/-- Python `a + b` on dynamic values, numbers only. -/
def pyAdd : PyVal → PyVal → Except PErr ℚ
  | .intv a, .intv b => .ok ((a : ℚ) + b)
  | .intv a, .floatv b => .ok ((a : ℚ) + b)
  | .floatv a, .intv b => .ok (a + b)
  | .floatv a, .floatv b => .ok (a + b)
  | _, _ => .error .typeErr

/-- Python `a / b` on dynamic values: `ZeroDivisionError` on a zero
divisor (for floats as well as ints), `TypeError` otherwise. -/
def pyDivQ (a : PyVal) (b : ℚ) : Except PErr ℚ :=
  match a with
  | .intv x => if b = 0 then .error .zeroDivErr else .ok ((x : ℚ) / b)
  | .floatv x => if b = 0 then .error .zeroDivErr else .ok (x / b)
  | _ => .error .typeErr

/-- `DataProcessor.prepare_features_for_prediction` (helpers.py lines
116-170): sensor values default to the neutral constants, weather values
to 0.0 / 3.0 (an empty weather dict is falsy and behaves like `None`), the
two derived features are computed, the timestamp is resolved, and the
11-entry feature vector is returned wrapped in an outer list. -/
def prepare_features_for_prediction (fromisoTs : String → Option Ts)
    (nowTs : Ts) (sensor_data : List (String × PyVal))
    (weather_data : Option (List (String × PyVal))) :
    Except PErr (List (List PyVal)) := do
  let temperature := (pyGet sensor_data "temperature").getD (.floatv 20)
  let humidity := (pyGet sensor_data "humidity").getD (.floatv 50)
  let soil_moisture := (pyGet sensor_data "soil_moisture").getD (.floatv 50)
  let soil_temperature :=
    (pyGet sensor_data "soil_temperature").getD (.floatv 18)
  let precipitation :=
    match weather_data with
    | some w => if w.isEmpty then .floatv 0 else (pyGet w "precipitation").getD (.floatv 0)
    | none => .floatv 0
  let wind_speed :=
    match weather_data with
    | some w => if w.isEmpty then .floatv 3 else (pyGet w "wind_speed").getD (.floatv 3)
    | none => .floatv 3
  let th ← pyMul temperature humidity
  let temp_humidity_interaction ← pyDivQ (.floatv th) 100
  let tp1 ← pyAdd temperature (.intv 1)
  let moisture_temp_ratio ← pyDivQ soil_moisture tp1
  let timestamp ←
    match (pyGet sensor_data "timestamp").getD (.dt nowTs) with
    | .dt t => Except.ok t
    | .str s =>
        match fromisoTs (pyReplaceZ s) with
        | some t => Except.ok t
        | none => Except.error .valueErr
    | _ => Except.error .attrErr
  Except.ok
    [[temperature, humidity, soil_moisture, soil_temperature,
      precipitation, wind_speed, .floatv temp_humidity_interaction,
      .floatv moisture_temp_ratio, .intv (timestamp.hour : Int),
      .intv (timestamp.tm_yday : Int), .intv (timestamp.month : Int)]]

/-!  ### Farm status aggregation (app/api/sensors.py lines 433-478) and
the batch endpoint loop (lines 135-231). -/

/-- Python `round` at `ndigits=1`: round-half-to-even on the rational
model of the float. -/
def pyRound1 (q : ℚ) : ℚ :=
  let x := q * 10
  let f := ⌊x⌋
  let r := x - f
  let n : Int :=
    if r < 1/2 then f
    else if 1/2 < r then f + 1
    else if f % 2 = 0 then f else f + 1
  (n : ℚ) / 10

/-- Lookup in a `target → Prediction` dict. -/
def predGet (d : List (String × Prediction)) (k : String) :
    Option Prediction :=
  match d with
  | [] => none
  | (k2, v) :: t => if k2 = k then some v else predGet t k

/-- The fixed recommendation string appended when critical alerts are
present (sensors.py line 469). -/
def critical_recommendation : String := "Address critical alerts immediately"

/-- `_calculate_farm_status` (sensors.py lines 433-478).  Each processed
sensor is represented by its `predictions` dict (the only field the
function reads); the result is the returned status dict.  Note the empty
branch omits the `warning_alerts` and `sensor_count` keys, as the code
does. -/
def calculate_farm_status (processed_sensors : List (List (String × Prediction)))
    (alerts : List Alert) : List (String × PyVal) :=
  match processed_sensors with
  | [] =>
    [("overall_health_score", .floatv 50),
     ("alert_count", .intv alerts.length),
     ("critical_alerts", .intv ((alerts.filter (fun a => a.severity = "critical")).length : Int)),
     ("recommendations", .list [.str "No sensor data available"])]
  | _ :: _ =>
    let health_scores :=
      processed_sensors.filterMap
        (fun p => (predGet p "crop_health").map (fun pr => pr.predicted_value))
    let avg_health_score : ℚ :=
      if health_scores.isEmpty then 50
      else health_scores.sum / (health_scores.length : ℚ)
    let critical_alerts :=
      (alerts.filter (fun a => a.severity = "critical")).length
    let warning_alerts :=
      (alerts.filter (fun a => a.severity = "warning")).length
    let irrigation_needed :=
      processed_sensors.any (fun p =>
        (((predGet p "irrigation").map (fun pr => pr.predicted_value)).getD 0) = 1)
    let recommendations :=
      (if irrigation_needed then ["Irrigation recommended for multiple fields"] else []) ++
      (if avg_health_score < 60 then ["Crop health below optimal - check soil conditions"] else []) ++
      (if critical_alerts > 0 then [critical_recommendation] else [])
    [("overall_health_score", .floatv (pyRound1 avg_health_score)),
     ("alert_count", .intv alerts.length),
     ("critical_alerts", .intv (critical_alerts : Int)),
     ("warning_alerts", .intv (warning_alerts : Int)),
     ("recommendations", .list (recommendations.map (fun r => .str r))),
     ("sensor_count", .intv (processed_sensors.length : Int))]

/-- One validated pydantic `SensorData` record (schemas/models.py lines
14-21). -/
structure SensorData where
  sensor_id : String
  sensor_type : String
  value : ℚ
  timestamp : Ts
  location : Option String
  metadata : List (String × PyVal)

/-- `sensor_data.dict()`: the six schema keys in declaration order. -/
def sensor_dict (s : SensorData) : List (String × PyVal) :=
  [("sensor_id", .str s.sensor_id),
   ("sensor_type", .str s.sensor_type),
   ("value", .floatv s.value),
   ("timestamp", .dt s.timestamp),
   ("location", match s.location with | some l => .str l | none => .null),
   ("metadata", .dict s.metadata)]

/-- The same record viewed as the raw dict `validate_sensor_data`
receives: every required field present, the timestamp a datetime. -/
def sensor_raw (s : SensorData) : RawReading :=
  { sensor_id := some s.sensor_id, sensor_type := some s.sensor_type,
    value := some s.value, timestamp := some (.dt s.timestamp) }

/-- The `ModelManager` state shared by the endpoints: the per-target
optional model/scaler pairs plus `metadata['feature_columns']`. -/
structure MMState where
  irrigation_model : Option PyClassifier
  irrigation_scaler : Option Transformer
  crop_health_model : Option PyRegressor
  crop_health_scaler : Option Transformer
  yield_model : Option PyRegressor
  yield_scaler : Option Transformer
  feature_columns : List String

/-- The per-sensor predictions dict built in the batch loop (sensors.py
lines 172-176). -/
def sensor_predictions (mm : MMState) (features : List (List PyVal)) :
    List (String × Prediction) :=
  [("irrigation",
    predict_irrigation_need mm.irrigation_model mm.irrigation_scaler
      mm.feature_columns features),
   ("crop_health",
    predict_crop_health mm.crop_health_model mm.crop_health_scaler
      mm.feature_columns features),
   ("yield",
    predict_yield mm.yield_model mm.yield_scaler mm.feature_columns features)]

/-- Sequences fallible per-element computations left to right, stopping at
the first raised exception, as the Python `for` loop does. -/
def mapExcept (f : α → Except ε β) : List α → Except ε (List β)
  | [] => .ok []
  | a :: l => do
      let b ← f a
      let bs ← mapExcept f l
      .ok (b :: bs)

/-- The farm-status portion of `receive_batch_sensor_data` (sensors.py
lines 156-208): invalid readings are skipped; each valid reading
contributes its threshold alerts and its predictions dict; the fold ends
in `_calculate_farm_status`.  Insight generation is omitted because the
returned farm status does not depend on it.  A feature-preparation
exception escapes the loop (the endpoint answers 500), hence the `Except`
result. -/
def batch_farm_status (fromiso : String → Bool)
    (fromisoTs : String → Option Ts) (nowTs : Ts) (now : String)
    (mm : MMState) (weather_data : Option (List (String × PyVal)))
    (sensors : List SensorData) : Except PErr (List (String × PyVal)) := do
  let valid := sensors.filter
    (fun s => (validate_sensor_data fromiso (sensor_raw s)).1)
  let all_alerts := valid.flatMap
    (fun s => check_alerts default_alert_thresholds [(s.sensor_type, s.value)] now)
  let processed ← mapExcept
    (fun s => do
      let features ←
        prepare_features_for_prediction fromisoTs nowTs (sensor_dict s)
          weather_data
      Except.ok (sensor_predictions mm features))
    valid
  Except.ok (calculate_farm_status processed all_alerts)

/-!  ## Theorems -/

/-- C5 counterexample: with the default thresholds, the mapping key
`air_temperature` matches no threshold row (the table key is `temperature`),
so no alert at all is produced, not one `low`/`warning` alert. -/
theorem check_alerts_air_temperature_yields_nothing_cex :
    check_alerts default_alert_thresholds [("air_temperature", 2)]
      "2024-01-01T00:00:00" = [] := rfl

/-- C5 (amended): with the default thresholds, `check_alerts` on
`["air_temperature" ↦ 2]` yields no alert because `air_temperature` is not
a threshold key; on `["temperature" ↦ 2]` (threshold min 5) it yields
exactly one `low_threshold` alert with severity `warning`; and on
`["soil_moisture" ↦ 95]` (threshold max 80) it yields exactly one
`high_threshold` alert with severity `critical`. -/
theorem check_alerts_default_threshold_examples :
    ∀ now : String,
      check_alerts default_alert_thresholds [("air_temperature", 2)] now = [] ∧
      check_alerts default_alert_thresholds [("temperature", 2)] now =
        [{ type := "low_threshold", sensor_type := "temperature", value := 2,
           threshold := 5, message := "temperature is below minimum threshold",
           severity := "warning", timestamp := now }] ∧
      check_alerts default_alert_thresholds [("soil_moisture", 95)] now =
        [{ type := "high_threshold", sensor_type := "soil_moisture", value := 95,
           threshold := 80, message := "soil_moisture is above maximum threshold",
           severity := "critical", timestamp := now }] := by
  intro now
  refine ⟨rfl, rfl, rfl⟩

/-- C7: when a target's model or scaler is not loaded, `predict_*` returns
the degraded default result: `model_name = "default"`, confidence 0.5, and
the target-specific neutral value (0 for irrigation, 50.0 for crop health,
2000.0 for yield). -/
theorem predict_unloaded_defaults :
    (∀ (m : Option PyClassifier) (sc : Option Transformer)
        (meta : List String) (f : List (List PyVal)),
        m.isNone ∨ sc.isNone →
        predict_irrigation_need m sc meta f =
          { predicted_value := 0, confidence := 1/2, model_name := "default",
            features_used := default_features_used }) ∧
    (∀ (m : Option PyRegressor) (sc : Option Transformer)
        (meta : List String) (f : List (List PyVal)),
        m.isNone ∨ sc.isNone →
        predict_crop_health m sc meta f =
          { predicted_value := 50, confidence := 1/2, model_name := "default",
            features_used := default_features_used }) ∧
    (∀ (m : Option PyRegressor) (sc : Option Transformer)
        (meta : List String) (f : List (List PyVal)),
        m.isNone ∨ sc.isNone →
        predict_yield m sc meta f =
          { predicted_value := 2000, confidence := 1/2, model_name := "default",
            features_used := default_features_used }) := by
  refine ⟨?_, ?_, ?_⟩ <;> intro m sc meta f h <;>
    cases m <;> cases sc <;> simp_all [predict_irrigation_need,
      predict_crop_health, predict_yield]

/-- C7 witness: with nothing loaded, all three targets return their
default degraded results. -/
theorem predict_unloaded_defaults_witness :
    predict_irrigation_need none none [] [] =
      { predicted_value := 0, confidence := 1/2, model_name := "default",
        features_used := default_features_used } ∧
    predict_crop_health none none [] [] =
      { predicted_value := 50, confidence := 1/2, model_name := "default",
        features_used := default_features_used } ∧
    predict_yield none none [] [] =
      { predicted_value := 2000, confidence := 1/2, model_name := "default",
        features_used := default_features_used } :=
  ⟨predict_unloaded_defaults.1 none none [] [] (Or.inl rfl),
   predict_unloaded_defaults.2.1 none none [] [] (Or.inl rfl),
   predict_unloaded_defaults.2.2 none none [] [] (Or.inl rfl)⟩

/-- C6: any exception raised inside the inference body (scaling or model
invocation) is caught and converted into the degraded result with
`model_name = "error"` and confidence 0.5; the functions themselves are
total, so no exception propagates to the caller. -/
theorem predict_failure_degrades :
    (∀ (m : PyClassifier) (sc : Transformer) (meta : List String)
        (f : List (List PyVal)),
        irrigation_infer m sc meta f = .error () →
        predict_irrigation_need (some m) (some sc) meta f =
          { predicted_value := 0, confidence := 1/2, model_name := "error",
            features_used := [] }) ∧
    (∀ (m : PyRegressor) (sc : Transformer) (meta : List String)
        (f : List (List PyVal)),
        crop_health_infer m sc meta f = .error () →
        predict_crop_health (some m) (some sc) meta f =
          { predicted_value := 50, confidence := 1/2, model_name := "error",
            features_used := [] }) ∧
    (∀ (m : PyRegressor) (sc : Transformer) (meta : List String)
        (f : List (List PyVal)),
        yield_infer m sc meta f = .error () →
        predict_yield (some m) (some sc) meta f =
          { predicted_value := 2000, confidence := 1/2, model_name := "error",
            features_used := [] }) := by
  refine ⟨?_, ?_, ?_⟩ <;> intro m sc meta f h <;>
    simp [predict_irrigation_need, predict_crop_health, predict_yield, h]

/-- C6 witness: a scaler whose `transform` raises on the empty feature
vector produces the `"error"` results on all three targets. -/
theorem predict_failure_degrades_witness :
    predict_irrigation_need
        (some { predict := fun _ => .ok [], predict_proba := fun _ => .ok none })
        (some (fun _ => .error ())) [] [] =
      { predicted_value := 0, confidence := 1/2, model_name := "error",
        features_used := [] } ∧
    predict_crop_health (some { predict := fun _ => .ok [] })
        (some (fun _ => .error ())) [] [] =
      { predicted_value := 50, confidence := 1/2, model_name := "error",
        features_used := [] } ∧
    predict_yield (some { predict := fun _ => .ok [] })
        (some (fun _ => .error ())) [] [] =
      { predicted_value := 2000, confidence := 1/2, model_name := "error",
        features_used := [] } :=
  ⟨predict_failure_degrades.1 _ _ [] [] rfl,
   predict_failure_degrades.2.1 _ _ [] [] rfl,
   predict_failure_degrades.2.2 _ _ [] [] rfl⟩

/-- C1 counterexample: with both providers configured, the primary
failing, and the secondary ready to return a perfectly parsable response,
the orchestrator still returns the static fallback — it never advances to
the secondary provider (whose response would have produced content
`"ok"`, which the fallback does not). -/
theorem llm_primary_failure_ignores_secondary_cex :
    llm_generate "irrigation"
        (fun s => if s = "\x7b\"content\": \"ok\"\x7d" then
          some (.dict [("content", .str "ok")]) else none)
        (some (.error ())) (some (.ok "\x7b\"content\": \"ok\"\x7d")) "T" =
      generate_fallback_insight "irrigation" "T" ∧
    pyGet
        (parse_llm_response
          (fun s => if s = "\x7b\"content\": \"ok\"\x7d" then
            some (.dict [("content", .str "ok")]) else none)
          "\x7b\"content\": \"ok\"\x7d" "irrigation" "T") "content" =
      some (.str "ok") ∧
    pyGet (generate_fallback_insight "irrigation" "T") "content" ≠
      some (.str "ok") := by
  refine ⟨rfl, rfl, ?_⟩
  intro h
  simp [generate_fallback_insight, pyGet] at h

/-- C1 (amended): the provider chain advances on configuration, not on
failure.  If the primary provider is configured, only it is attempted: a
successful call is parsed, a failed call goes straight to the static
fallback without trying the secondary.  The secondary is attempted only
when the primary is unconfigured, with the same failure behavior.  With no
provider configured the static fallback is returned directly.  In every
case a provider failure is caught and an insight is returned, never an
exception. -/
theorem llm_provider_chain_behavior :
    ∀ (t now s : String) (loads : String → Option PyVal)
      (gm : Option (Except Unit String)),
      llm_generate t loads (some (.error ())) gm now =
        generate_fallback_insight t now ∧
      llm_generate t loads (some (.ok s)) gm now =
        parse_llm_response loads s t now ∧
      llm_generate t loads none (some (.error ())) now =
        generate_fallback_insight t now ∧
      llm_generate t loads none (some (.ok s)) now =
        parse_llm_response loads s t now ∧
      llm_generate t loads none none now =
        generate_fallback_insight t now := by
  intro t now s loads gm
  exact ⟨rfl, rfl, rfl, rfl, rfl⟩

/-- C8: normalizing any provider response whose extracted JSON parses to
the object with `content` mapped to the mapping `a ↦ 1, b ↦ 2` yields the
flattened semicolon-joined content string `"a: 1; b: 2"`. -/
theorem parse_mapping_content_flattened :
    ∀ (loads : String → Option PyVal) (raw t now js : String),
      extract_json_str raw = some js →
      loads js =
        some (.dict [("content", .dict [("a", .intv 1), ("b", .intv 2)])]) →
      pyGet (parse_llm_response loads raw t now) "content" =
        some (.str "a: 1; b: 2") := by
  intro loads raw t now js h1 h2
  simp [parse_llm_response, h1, h2, normalize_content, normalize_listfield,
    dictSet, pyGet, pyValStr, pyValRepr, charReplace]
  rfl

/-- C8 witness: the concrete raw response text parses to exactly that
object and flattens to `"a: 1; b: 2"`. -/
theorem parse_mapping_content_flattened_witness :
    pyGet
        (parse_llm_response
          (fun s => if s = "\x7b\"a\": 1, \"b\": 2\x7d inner" then none
            else some (.dict [("content", .dict [("a", .intv 1), ("b", .intv 2)])]))
          "\x7b\"content\": \x7b\"a\": 1, \"b\": 2\x7d\x7d" "irrigation" "T")
        "content" =
      some (.str "a: 1; b: 2") :=
  parse_mapping_content_flattened _ _ "irrigation" "T"
    "\x7b\"content\": \x7b\"a\": 1, \"b\": 2\x7d\x7d" rfl rfl

/-- C4 counterexample: a reading that is missing its `timestamp` field and
has an out-of-range humidity value 150 gets only the missing-field error —
the validator returns early before the range checks, so the error set is
not complete in one pass. -/
theorem validate_missing_field_short_circuits_cex :
    validate_sensor_data (fun _ => true)
      { sensor_id := some "s1", sensor_type := some "dht_humidity",
        value := some 150, timestamp := none } =
      (false, ["Missing required field: timestamp"]) := rfl

/-- C4 (amended): the validator short-circuits on missing required fields:
if any required field is missing it returns early with exactly the
missing-field errors and reports nothing else.  Only when all four
required fields are present does it collect, in one pass and without
short-circuiting, every failing check among unknown sensor type,
out-of-range value and unparsable timestamp; the success flag is true
exactly when the error list is empty. -/
theorem validate_error_collection :
    ∀ (fromiso : String → Bool) (d : RawReading),
      ((validate_sensor_data fromiso d).1 = true ↔
        (validate_sensor_data fromiso d).2 = []) ∧
      (missing_field_errors d ≠ [] →
        validate_sensor_data fromiso d = (false, missing_field_errors d)) ∧
      (missing_field_errors d = [] →
        (validate_sensor_data fromiso d).2 =
          type_errors d ++ range_errors d ++ timestamp_errors fromiso d) := by
  intro fromiso d
  unfold validate_sensor_data
  by_cases h : missing_field_errors d = []
  · simp [h]
  · simp [h]

/-- C4 witness: a reading with all fields present, an unknown sensor type
and an unparsable timestamp gets both errors reported in one pass. -/
theorem validate_error_collection_witness :
    (validate_sensor_data (fun _ => false)
        { sensor_id := some "s1", sensor_type := some "bogus",
          value := some 50, timestamp := some (.str "nonsense") }).2 =
      ["Invalid sensor type: bogus", "Invalid timestamp format"] := by
  have h :=
    (validate_error_collection (fun _ => false)
      { sensor_id := some "s1", sensor_type := some "bogus",
        value := some 50, timestamp := some (.str "nonsense") }).2.2 rfl
  rw [h]
  rfl

/-- Every element of the list is a `PyVal.str`. -/
def all_strings (l : List PyVal) : Prop :=
  ∀ v ∈ l, ∃ s, v = PyVal.str s

/-- Looking up the key just set returns the new value. -/
theorem pyGet_dictSet_same (d : List (String × PyVal)) (k : String)
    (v : PyVal) : pyGet (dictSet d k v) k = some v := by
  induction d with
  | nil => simp [dictSet, pyGet]
  | cons kv t ih =>
      rcases kv with ⟨ka, va⟩
      by_cases h : ka = k
      · subst h
        simp [dictSet, pyGet]
      · simp [dictSet, pyGet, h, ih]

/-- Looking up a different key is unaffected by `dictSet`. -/
theorem pyGet_dictSet_other (d : List (String × PyVal)) (k k2 : String)
    (v : PyVal) (h : k2 ≠ k) : pyGet (dictSet d k v) k2 = pyGet d k2 := by
  induction d with
  | nil => simp [dictSet, pyGet, h.symm]
  | cons kv t ih =>
      rcases kv with ⟨ka, va⟩
      by_cases hk : ka = k
      · subst hk
        simp [dictSet, pyGet, h.symm]
      · by_cases hk2 : ka = k2
        · simp [dictSet, pyGet, hk, hk2, h]
        · simp [dictSet, pyGet, hk, hk2, ih]

/-- The string coercion always produces a list of strings. -/
theorem coerce_str_list_strings (v : PyVal) :
    ∃ l, coerce_str_list v = .list l ∧ all_strings l := by
  have hif : ∀ w : PyVal,
      ∃ l, (if pyTruthy w then PyVal.list [.str (pyValStr w)]
        else PyVal.list []) = .list l ∧ all_strings l := by
    intro w
    by_cases hb : pyTruthy w
    · exact ⟨[.str (pyValStr w)], by simp [hb],
        by intro v hv; simp at hv; exact ⟨_, hv⟩⟩
    · exact ⟨[], by simp [hb], by intro v hv; simp at hv⟩
  rcases v with s | n | q | b | _ | vs | kvs | t
  case str =>
    exact ⟨[.str s], rfl, by intro v hv; simp at hv; exact ⟨s, hv⟩⟩
  case list =>
    refine ⟨vs.map (fun v => .str (pyValStr v)), rfl, ?_⟩
    intro v hv
    simp [List.mem_map] at hv
    obtain ⟨a, _, ha⟩ := hv
    exact ⟨pyValStr a, ha.symm⟩
  all_goals
    simp only [coerce_str_list]
    exact hif _

/-- The normalizer field coercion always stores a list of strings at the
given key. -/
theorem normalize_listfield_sets (p : List (String × PyVal)) (key : String) :
    ∃ l, pyGet (normalize_listfield p key) key = some (.list l) ∧
      all_strings l := by
  obtain ⟨l, hl, hs⟩ :=
    coerce_str_list_strings ((pyGet p key).getD (.list []))
  exact ⟨l, by rw [normalize_listfield, hl] ; exact pyGet_dictSet_same _ _ _, hs⟩

/-- The field coercion does not touch other keys. -/
theorem normalize_listfield_other (p : List (String × PyVal)) (key k2 : String)
    (h : k2 ≠ key) :
    pyGet (normalize_listfield p key) k2 = pyGet p k2 :=
  pyGet_dictSet_other _ _ _ _ h

/-- After content normalization the `content` field is always a string. -/
theorem normalize_content_is_str (p : List (String × PyVal)) :
    ∃ s, pyGet (normalize_content p) "content" = some (.str s) := by
  unfold normalize_content synth_content
  rcases hv : pyGet p "content" with _ | v
  · exact ⟨_, pyGet_dictSet_same _ _ _⟩
  · rcases v with s | n | q | b | _ | vs | kvs | t
    · by_cases hb : pyStrip s = ""
      · simp only [hb, if_pos rfl]
        exact ⟨_, pyGet_dictSet_same _ _ _⟩
      · simp only [if_neg hb]
        exact ⟨s, hv⟩
    all_goals exact ⟨_, pyGet_dictSet_same _ _ _⟩

/-- Schema facts about any normalized (non-fallback) parse result:
`content` is a string and `recommendations`/`warnings` are lists of
strings. -/
theorem parse_normalized_props (parsed : List (String × PyVal)) (now : String) :
    (∃ l, pyGet (dictSet (normalize_listfield (normalize_listfield
        (normalize_content parsed) "recommendations") "warnings")
        "timestamp" (.str now)) "recommendations" = some (.list l) ∧
      all_strings l) ∧
    (∃ l, pyGet (dictSet (normalize_listfield (normalize_listfield
        (normalize_content parsed) "recommendations") "warnings")
        "timestamp" (.str now)) "warnings" = some (.list l) ∧
      all_strings l) ∧
    (∃ s, pyGet (dictSet (normalize_listfield (normalize_listfield
        (normalize_content parsed) "recommendations") "warnings")
        "timestamp" (.str now)) "content" = some (.str s)) := by
  refine ⟨?_, ?_, ?_⟩
  · obtain ⟨l, hl, hs⟩ :=
      normalize_listfield_sets (normalize_content parsed) "recommendations"
    refine ⟨l, ?_, hs⟩
    rw [pyGet_dictSet_other _ _ _ _ (by decide),
      normalize_listfield_other _ _ _ (by decide), hl]
  · obtain ⟨l, hl, hs⟩ :=
      normalize_listfield_sets
        (normalize_listfield (normalize_content parsed) "recommendations")
        "warnings"
    refine ⟨l, ?_, hs⟩
    rw [pyGet_dictSet_other _ _ _ _ (by decide), hl]
  · obtain ⟨s, hs⟩ := normalize_content_is_str parsed
    refine ⟨s, ?_⟩
    rw [pyGet_dictSet_other _ _ _ _ (by decide),
      normalize_listfield_other _ _ _ (by decide),
      normalize_listfield_other _ _ _ (by decide), hs]

/-- Schema facts about the static fallback insight, whose `content` is
moreover non-empty. -/
theorem fallback_insight_props (t now : String) :
    (∃ l, pyGet (generate_fallback_insight t now) "recommendations" =
        some (.list l) ∧ all_strings l) ∧
    (∃ l, pyGet (generate_fallback_insight t now) "warnings" =
        some (.list l) ∧ all_strings l) ∧
    (∃ s, pyGet (generate_fallback_insight t now) "content" =
        some (.str s) ∧ s ≠ "") := by
  unfold generate_fallback_insight
  split_ifs <;>
    refine ⟨⟨_, rfl, ?_⟩, ⟨_, rfl, ?_⟩, _, rfl, by decide⟩ <;>
      (intro v hv; simp at hv; rcases hv with rfl | rfl | rfl <;> exact ⟨_, rfl⟩)

/-- C3 counterexample: a provider response whose extracted JSON object is
`\x7b"content": \x7b\x7d\x7d` is normalized to an insight whose `content`
is the EMPTY string — flattening the empty mapping joins zero parts — so
the content field is not always non-empty. -/
theorem insight_empty_mapping_content_empty_cex :
    pyGet
        (llm_generate "irrigation"
          (fun s => if s = "\x7b\"content\": \x7b\x7d\x7d" then
            some (.dict [("content", .dict [])]) else none)
          (some (.ok "\x7b\"content\": \x7b\x7d\x7d")) none "T") "content" =
      some (.str "") := rfl

/-- C3 (amended): for every provider response and provider-availability
configuration, `generateInsight` returns an insight whose
`recommendations` and `warnings` are lists of strings and whose `content`
is a string; `content` is moreover non-empty whenever no provider is
configured (static fallback), but it can be empty on the normalization
path — e.g. when the parsed `content` field is an empty mapping. -/
theorem insight_schema_invariants :
    ∀ (t now : String) (loads : String → Option PyVal)
      (op gm : Option (Except Unit String)),
      (∃ l, pyGet (llm_generate t loads op gm now) "recommendations" =
          some (.list l) ∧ all_strings l) ∧
      (∃ l, pyGet (llm_generate t loads op gm now) "warnings" =
          some (.list l) ∧ all_strings l) ∧
      (∃ s, pyGet (llm_generate t loads op gm now) "content" =
          some (.str s)) ∧
      (op = none → gm = none →
        ∃ s, pyGet (llm_generate t loads op gm now) "content" =
          some (.str s) ∧ s ≠ "") := by
  intro t now loads op gm
  have hparse : ∀ raw : String,
      (∃ l, pyGet (parse_llm_response loads raw t now) "recommendations" =
          some (.list l) ∧ all_strings l) ∧
      (∃ l, pyGet (parse_llm_response loads raw t now) "warnings" =
          some (.list l) ∧ all_strings l) ∧
      (∃ s, pyGet (parse_llm_response loads raw t now) "content" =
          some (.str s)) := by
    intro raw
    unfold parse_llm_response
    rcases hx : extract_json_str raw with _ | js
    · try simp only [hx]
      obtain ⟨h1, h2, s, h3, _⟩ := fallback_insight_props t now
      exact ⟨h1, h2, s, h3⟩
    · try simp only [hx]
      rcases hl : loads js with _ | v
      · try simp only [hl]
        obtain ⟨h1, h2, s, h3, _⟩ := fallback_insight_props t now
        exact ⟨h1, h2, s, h3⟩
      · try simp only [hl]
        rcases v with s | n | q | b | _ | vs | kvs | ts
        case dict => exact parse_normalized_props kvs now
        all_goals
          obtain ⟨h1, h2, s, h3, _⟩ := fallback_insight_props t now
          exact ⟨h1, h2, s, h3⟩
  have hfb :
      (∃ l, pyGet (generate_fallback_insight t now) "recommendations" =
          some (.list l) ∧ all_strings l) ∧
      (∃ l, pyGet (generate_fallback_insight t now) "warnings" =
          some (.list l) ∧ all_strings l) ∧
      (∃ s, pyGet (generate_fallback_insight t now) "content" =
          some (.str s) ∧ s ≠ "") := fallback_insight_props t now
  rcases op with _ | op
  · rcases gm with _ | gm
    · obtain ⟨h1, h2, s, h3, h4⟩ := hfb
      exact ⟨h1, h2, ⟨s, h3⟩, fun _ _ => ⟨s, h3, h4⟩⟩
    · rcases gm with e | raw
      · obtain ⟨h1, h2, s, h3, _⟩ := hfb
        exact ⟨h1, h2, ⟨s, h3⟩, fun _ h => by cases h⟩
      · obtain ⟨h1, h2, h3⟩ := hparse raw
        exact ⟨h1, h2, h3, fun _ h => by cases h⟩
  · rcases op with e | raw
    · obtain ⟨h1, h2, s, h3, _⟩ := hfb
      exact ⟨h1, h2, ⟨s, h3⟩, fun h => by cases h⟩
    · obtain ⟨h1, h2, h3⟩ := hparse raw
      exact ⟨h1, h2, h3, fun h => by cases h⟩

/-- C3 witness: with no provider configured the fallback insight shows the
guaranteed schema concretely — list-of-strings fields and a non-empty
content. -/
theorem insight_schema_invariants_witness :
    (∃ l, pyGet (llm_generate "irrigation" (fun _ => none) none none "T")
        "recommendations" = some (.list l) ∧ all_strings l) ∧
    (∃ s, pyGet (llm_generate "irrigation" (fun _ => none) none none "T")
        "content" = some (.str s) ∧ s ≠ "") := by
  obtain ⟨h1, _, _, h4⟩ :=
    insight_schema_invariants "irrigation" "T" (fun _ => none) none none
  exact ⟨h1, h4 rfl rfl⟩

/-- The exact key list of a pydantic `SensorData.dict()` payload, in
declaration order (schemas/models.py lines 14-21). -/
def schema_keys : List String :=
  ["sensor_id", "sensor_type", "value", "timestamp", "location", "metadata"]

/-- A key outside a dict's key list looks up to `none`. -/
theorem pyGet_eq_none_of_keys (d : List (String × PyVal)) (ks : List String)
    (k : String) (h : d.map Prod.fst = ks) (hk : k ∉ ks) :
    pyGet d k = none := by
  induction d generalizing ks with
  | nil => simp [pyGet]
  | cons kv t ih =>
      cases ks with
      | nil => simp at h
      | cons a as =>
          simp only [List.map_cons, List.cons.injEq] at h
          obtain ⟨h1, h2⟩ := h
          have hne : kv.1 ≠ k := by
            intro hr
            apply hk
            rw [← hr, h1]
            exact List.mem_cons_self a as
          rw [pyGet, if_neg hne]
          exact ih as h2 (fun hm => hk (List.mem_cons_of_mem a hm))

/-- C9: the measured sensor value never reaches the feature vector.  For
any two dicts carrying exactly the `SensorData` schema keys and agreeing
everywhere except possibly at `value`, feature extraction returns
identical results, and any successful extraction starts with the four
neutral defaults 20.0, 50.0, 50.0, 18.0 — the schema never produces the
`temperature`/`humidity`/`soil_moisture`/`soil_temperature` keys the
extractor reads. -/
theorem features_ignore_reading_value :
    ∀ (fromisoTs : String → Option Ts) (nowTs : Ts)
      (w : Option (List (String × PyVal))) (d1 d2 : List (String × PyVal)),
      d1.map Prod.fst = schema_keys →
      d2.map Prod.fst = schema_keys →
      (∀ k, k ≠ "value" → pyGet d1 k = pyGet d2 k) →
      prepare_features_for_prediction fromisoTs nowTs d1 w =
        prepare_features_for_prediction fromisoTs nowTs d2 w ∧
      ∀ l, prepare_features_for_prediction fromisoTs nowTs d1 w = .ok l →
        l.map (List.take 4) =
          [[.floatv 20, .floatv 50, .floatv 50, .floatv 18]] := by
  intro fromisoTs nowTs w d1 d2 h1 _h2 hag
  have ht := pyGet_eq_none_of_keys d1 _ "temperature" h1 (by decide)
  have hh := pyGet_eq_none_of_keys d1 _ "humidity" h1 (by decide)
  have hm := pyGet_eq_none_of_keys d1 _ "soil_moisture" h1 (by decide)
  have hst := pyGet_eq_none_of_keys d1 _ "soil_temperature" h1 (by decide)
  constructor
  · unfold prepare_features_for_prediction
    rw [hag "temperature" (by decide), hag "humidity" (by decide),
      hag "soil_moisture" (by decide), hag "soil_temperature" (by decide),
      hag "timestamp" (by decide)]
  · intro l hl
    unfold prepare_features_for_prediction at hl
    rw [ht, hh, hm, hst] at hl
    simp only [Option.getD_none, pyMul, pyAdd, bind, Except.bind] at hl
    norm_num [pyDivQ] at hl
    rcases hts : (pyGet d1 "timestamp").getD (.dt nowTs)
      with s | n | q | b | _ | vs | kvs | t
    case dt =>
      rw [hts] at hl
      simp only at hl
      cases hl
      rfl
    case str =>
      rw [hts] at hl
      simp only at hl
      rcases hfi : fromisoTs (pyReplaceZ s) with _ | t
      · rw [hfi] at hl
        simp at hl
      · rw [hfi] at hl
        simp only at hl
        cases hl
        rfl
    all_goals
      rw [hts] at hl
      simp at hl

/-- C9 witness: two concrete schema payloads differing only in `value`
(15 versus 95) produce the same features, and the first four features are
the neutral defaults. -/
theorem features_ignore_reading_value_witness :
    prepare_features_for_prediction (fun _ => none) ⟨12, 100, 4⟩
        [("sensor_id", .str "m1"), ("sensor_type", .str "soil_moisture"),
         ("value", .floatv 15), ("timestamp", .dt ⟨12, 100, 4⟩),
         ("location", .null), ("metadata", .dict [])] none =
      prepare_features_for_prediction (fun _ => none) ⟨12, 100, 4⟩
        [("sensor_id", .str "m1"), ("sensor_type", .str "soil_moisture"),
         ("value", .floatv 95), ("timestamp", .dt ⟨12, 100, 4⟩),
         ("location", .null), ("metadata", .dict [])] none ∧
    ∀ l, prepare_features_for_prediction (fun _ => none) ⟨12, 100, 4⟩
        [("sensor_id", .str "m1"), ("sensor_type", .str "soil_moisture"),
         ("value", .floatv 15), ("timestamp", .dt ⟨12, 100, 4⟩),
         ("location", .null), ("metadata", .dict [])] none = .ok l →
      l.map (List.take 4) =
        [[.floatv 20, .floatv 50, .floatv 50, .floatv 18]] :=
  features_ignore_reading_value (fun _ => none) ⟨12, 100, 4⟩ none _ _
    rfl rfl
    (by
      intro k hk
      simp only [pyGet]
      split_ifs with a b c d e f <;> first | rfl | exact absurd c.symm hk)

/-- Reads a number out of a dict-slot lookup: an absent key yields the
default, a Python int or float its rational value, anything else `none`.
This captures the numeric domain presupposed by the feature extractor
claims. -/
def numValOrDefault (o : Option PyVal) (dflt : ℚ) : Option ℚ :=
  match o with
  | none => some dflt
  | some (.floatv q) => some q
  | some (.intv n) => some (n : ℚ)
  | some _ => none

/-- The `timestamp` slot resolves to datetime `t`: it is absent (wall
clock `nowTs`), already a datetime, or a string that
`datetime.fromisoformat` parses after Z-replacement. -/
def ts_resolves (o : Option PyVal) (fromisoTs : String → Option Ts)
    (nowTs t : Ts) : Prop :=
  match o with
  | none => t = nowTs
  | some (.dt t2) => t = t2
  | some (.str s) => fromisoTs (pyReplaceZ s) = some t
  | some _ => False

/-- A numeric slot is either a float or an int with the same rational
value. -/
theorem numValOrDefault_getD (o : Option PyVal) (dflt q : ℚ)
    (h : numValOrDefault o dflt = some q) :
    o.getD (.floatv dflt) = .floatv q ∨
      ∃ n : Int, o.getD (.floatv dflt) = .intv n ∧ (n : ℚ) = q := by
  rcases o with _ | v
  · left
    simp [numValOrDefault] at h
    rw [Option.getD_none, h]
  · rcases v with s | n | q2 | b | _ | vs | kvs | t <;>
      simp [numValOrDefault] at h
    · right
      exact ⟨n, rfl, h⟩
    · left
      rw [Option.getD_some, h]

/-- `a * slot` multiplies out on a numeric slot. -/
theorem pyMul_floatv_slot (a : ℚ) {o : Option PyVal} {dflt q : ℚ}
    (h : numValOrDefault o dflt = some q) :
    pyMul (.floatv a) (o.getD (.floatv dflt)) = .ok (a * q) := by
  rcases numValOrDefault_getD o dflt q h with h2 | ⟨n, h2, hn⟩
  · rw [h2]
    simp [pyMul]
  · rw [h2]
    simp [pyMul, hn]

/-- `slot * slot` multiplies out on two numeric slots. -/
theorem pyMul_slot_slot {o1 : Option PyVal} {d1 q1 : ℚ}
    {o2 : Option PyVal} {d2 q2 : ℚ}
    (h1 : numValOrDefault o1 d1 = some q1)
    (h2 : numValOrDefault o2 d2 = some q2) :
    pyMul (o1.getD (.floatv d1)) (o2.getD (.floatv d2)) = .ok (q1 * q2) := by
  rcases numValOrDefault_getD o1 d1 q1 h1 with ha | ⟨n1, ha, hn1⟩ <;>
    rcases numValOrDefault_getD o2 d2 q2 h2 with hb | ⟨n2, hb, hn2⟩ <;>
      rw [ha, hb]
  · simp [pyMul]
  · simp [pyMul, hn2]
  · simp [pyMul, hn1]
  · simp [pyMul, hn1, hn2]

/-- `slot + 1` adds out on a numeric slot. -/
theorem pyAdd_slot_one {o : Option PyVal} {dflt q : ℚ}
    (h : numValOrDefault o dflt = some q) :
    pyAdd (o.getD (.floatv dflt)) (.intv 1) = .ok (q + 1) := by
  rcases numValOrDefault_getD o dflt q h with h2 | ⟨n, h2, hn⟩
  · rw [h2]
    simp [pyAdd]
  · rw [h2]
    simp [pyAdd, hn]

/-- `slot / b` on a numeric slot: `ZeroDivisionError` exactly on a zero
divisor. -/
theorem pyDivQ_slot {o : Option PyVal} {dflt q : ℚ} (b : ℚ)
    (h : numValOrDefault o dflt = some q) :
    pyDivQ (o.getD (.floatv dflt)) b =
      if b = 0 then .error .zeroDivErr else .ok (q / b) := by
  rcases numValOrDefault_getD o dflt q h with h2 | ⟨n, h2, hn⟩
  · rw [h2]
    simp [pyDivQ]
  · rw [h2]
    simp [pyDivQ, hn]

/-- Monadic bind on a successful `Except` computation runs the
continuation. -/
theorem exceptBind_ok {ε α β : Type} (a : α) (f : α → Except ε β) :
    (Except.ok a : Except ε α) >>= f = f a := rfl

/-- Monadic bind on a failed `Except` computation propagates the error. -/
theorem exceptBind_err {ε α β : Type} (e : ε) (f : α → Except ε β) :
    (Except.error e : Except ε α) >>= f = Except.error e := rfl

/-- C10: the extractor is not total at the temperature epsilon.  On any
numeric reading whose `temperature` entry is the float -1.0, the
`moisture_temp_ratio` division `soil_moisture / (temperature + 1)` divides
by zero and the function raises `ZeroDivisionError`; on any numeric
reading whose temperature differs from -1 and whose timestamp is absent,
a datetime, or a parsable string, it returns normally with exactly 11
features. -/
theorem features_temperature_epsilon :
    (∀ (fromisoTs : String → Option Ts) (nowTs : Ts)
        (w : Option (List (String × PyVal))) (d : List (String × PyVal))
        (hq mq : ℚ),
        pyGet d "temperature" = some (.floatv (-1)) →
        numValOrDefault (pyGet d "humidity") 50 = some hq →
        numValOrDefault (pyGet d "soil_moisture") 50 = some mq →
        prepare_features_for_prediction fromisoTs nowTs d w =
          .error .zeroDivErr) ∧
    (∀ (fromisoTs : String → Option Ts) (nowTs : Ts)
        (w : Option (List (String × PyVal))) (d : List (String × PyVal))
        (tq hq mq : ℚ) (t : Ts),
        numValOrDefault (pyGet d "temperature") 20 = some tq →
        tq ≠ -1 →
        numValOrDefault (pyGet d "humidity") 50 = some hq →
        numValOrDefault (pyGet d "soil_moisture") 50 = some mq →
        ts_resolves (pyGet d "timestamp") fromisoTs nowTs t →
        ∃ row, prepare_features_for_prediction fromisoTs nowTs d w =
          .ok [row] ∧ row.length = 11) := by
  constructor
  · intro fromisoTs nowTs w d hq mq htemp hhum hmoist
    unfold prepare_features_for_prediction
    rw [htemp]
    simp only [Option.getD_some]
    rw [pyMul_floatv_slot (-1) hhum]
    simp only [exceptBind_ok]
    rw [show pyDivQ (.floatv (-1 * hq)) 100 = .ok ((-1 * hq : ℚ) / 100) from
      by norm_num [pyDivQ]]
    simp only [exceptBind_ok]
    rw [show pyAdd (PyVal.floatv (-1)) (.intv 1) = .ok ((-1 : ℚ) + 1) from
      by simp [pyAdd],
      show ((-1 : ℚ) + 1) = 0 from by norm_num]
    simp only [exceptBind_ok]
    rw [pyDivQ_slot 0 hmoist]
    simp [exceptBind_err]
  · intro fromisoTs nowTs w d tq hq mq t htq0 htq hhum hmoist hres
    have hne : tq + 1 ≠ 0 := by
      intro h0
      apply htq
      linarith
    unfold prepare_features_for_prediction
    dsimp only
    rw [pyMul_slot_slot htq0 hhum]
    simp only [exceptBind_ok]
    rw [show pyDivQ (.floatv (tq * hq)) 100 = .ok ((tq * hq : ℚ) / 100) from
      by norm_num [pyDivQ]]
    simp only [exceptBind_ok]
    rw [pyAdd_slot_one htq0]
    simp only [exceptBind_ok]
    rw [pyDivQ_slot (tq + 1) hmoist, if_neg hne]
    simp only [exceptBind_ok]
    unfold ts_resolves at hres
    rcases hts : pyGet d "timestamp" with _ | v
    · rw [hts] at hres
      have hres2 : t = nowTs := hres
      subst hres2
      simp only [Option.getD_none]
      exact ⟨_, rfl, rfl⟩
    · rcases v with s | n | q2 | b | _ | vs | kvs | t2 <;> rw [hts] at hres
      case str =>
        have hres2 : fromisoTs (pyReplaceZ s) = some t := hres
        simp only [Option.getD_some]
        rw [hres2]
        exact ⟨_, rfl, rfl⟩
      case dt =>
        have hres2 : t = t2 := hres
        subst hres2
        simp only [Option.getD_some]
        exact ⟨_, rfl, rfl⟩
      all_goals exact (hres : False).elim

/-- C10 witness: a reading whose temperature is -1.0 raises the
zero-division error; the empty reading (all defaults, temperature 20)
returns 11 features. -/
theorem features_temperature_epsilon_witness :
    prepare_features_for_prediction (fun _ => none) ⟨0, 1, 1⟩
        [("temperature", .floatv (-1)), ("soil_moisture", .floatv 30)] none =
      .error .zeroDivErr ∧
    ∃ row, prepare_features_for_prediction (fun _ => none) ⟨0, 1, 1⟩ [] none =
      .ok [row] ∧ row.length = 11 :=
  ⟨features_temperature_epsilon.1 (fun _ => none) ⟨0, 1, 1⟩ none _ 50 30
      rfl rfl rfl,
   features_temperature_epsilon.2 (fun _ => none) ⟨0, 1, 1⟩ none [] 20 50 50
      ⟨0, 1, 1⟩ rfl (by norm_num) rfl rfl rfl⟩

/-- The precipitation value the extractor reads from the shared weather
dict (defaults to 0.0; an empty dict is falsy). -/
def weather_precip (w : Option (List (String × PyVal))) : PyVal :=
  match w with
  | some l => if l.isEmpty then .floatv 0 else (pyGet l "precipitation").getD (.floatv 0)
  | none => .floatv 0

/-- The wind-speed value the extractor reads from the shared weather dict
(defaults to 3.0). -/
def weather_wind (w : Option (List (String × PyVal))) : PyVal :=
  match w with
  | some l => if l.isEmpty then .floatv 3 else (pyGet l "wind_speed").getD (.floatv 3)
  | none => .floatv 3

/-- The feature vector produced for any schema payload: all sensor slots
take their neutral defaults (the schema keys never match the slot names),
so the derived features are the constants 20·50/100 = 10 and
50/(20+1) = 50/21, and only the weather values and the timestamp vary. -/
def sensor_features (s : SensorData) (w : Option (List (String × PyVal))) :
    List PyVal :=
  [.floatv 20, .floatv 50, .floatv 50, .floatv 18, weather_precip w,
   weather_wind w, .floatv 10, .floatv (50/21),
   .intv (s.timestamp.hour : Int), .intv (s.timestamp.tm_yday : Int),
   .intv (s.timestamp.month : Int)]

/-- Feature extraction on a `SensorData.dict()` payload always succeeds
and returns the default-based vector. -/
theorem prepare_sensor_dict_eq (fromisoTs : String → Option Ts) (nowTs : Ts)
    (s : SensorData) (w : Option (List (String × PyVal))) :
    prepare_features_for_prediction fromisoTs nowTs (sensor_dict s) w =
      .ok [sensor_features s w] := by
  unfold prepare_features_for_prediction sensor_dict sensor_features
    weather_precip weather_wind
  simp [pyGet, pyMul, pyAdd, pyDivQ, exceptBind_ok]
  norm_num
  rfl

/-- `mapExcept` over a list on which the function never fails returns the
mapped list. -/
theorem mapExcept_ok {α β : Type} {ε : Type} (f : α → Except ε β)
    (g : α → β) (l : List α) (h : ∀ a ∈ l, f a = .ok (g a)) :
    mapExcept f l = .ok (l.map g) := by
  induction l with
  | nil => rfl
  | cons a t ih =>
      rw [mapExcept, h a (List.mem_cons_self a t),
        ih (fun b hb => h b (List.mem_cons_of_mem a hb))]
      rfl

/-- A `flatMap` whose function returns `[]` on every element is `[]`. -/
theorem flatMap_nil_of {α β : Type} (f : α → List β) (l : List α)
    (h : ∀ a ∈ l, f a = []) : l.flatMap f = [] := by
  induction l with
  | nil => rfl
  | cons a t ih =>
      rw [List.flatMap_cons, h a (List.mem_cons_self a t),
        ih (fun b hb => h b (List.mem_cons_of_mem a hb))]
      rfl

/-- The batch endpoint always reaches the farm-status fold: feature
preparation cannot fail on schema payloads, so the loop processes exactly
the valid readings. -/
theorem batch_farm_status_eq (fromiso : String → Bool)
    (fromisoTs : String → Option Ts) (nowTs : Ts) (now : String)
    (mm : MMState) (w : Option (List (String × PyVal)))
    (sensors : List SensorData) :
    batch_farm_status fromiso fromisoTs nowTs now mm w sensors =
      .ok (calculate_farm_status
        ((sensors.filter
            (fun s => (validate_sensor_data fromiso (sensor_raw s)).1)).map
          (fun s => sensor_predictions mm [sensor_features s w]))
        ((sensors.filter
            (fun s => (validate_sensor_data fromiso (sensor_raw s)).1)).flatMap
          (fun s =>
            check_alerts default_alert_thresholds
              [(s.sensor_type, s.value)] now))) := by
  unfold batch_farm_status
  dsimp only
  rw [mapExcept_ok _
    (fun s => sensor_predictions mm [sensor_features s w]) _
    (fun s _ => by rw [prepare_sensor_dict_eq fromisoTs nowTs s w]; rfl)]
  rfl

/-- Projections of a non-empty farm status: the alert counters count the
alert list by severity, and the critical recommendation appears only when
a critical alert exists. -/
theorem calculate_farm_status_counters (p : List (String × Prediction))
    (ps : List (List (String × Prediction))) (alerts : List Alert) :
    pyGet (calculate_farm_status (p :: ps) alerts) "critical_alerts" =
      some (.intv
        (((alerts.filter (fun a => a.severity = "critical")).length : Int))) ∧
    pyGet (calculate_farm_status (p :: ps) alerts) "warning_alerts" =
      some (.intv
        (((alerts.filter (fun a => a.severity = "warning")).length : Int))) ∧
    pyGet (calculate_farm_status (p :: ps) alerts) "alert_count" =
      some (.intv (alerts.length : Int)) ∧
    ∃ rl, pyGet (calculate_farm_status (p :: ps) alerts) "recommendations" =
        some (.list rl) ∧
      ((alerts.filter (fun a => a.severity = "critical")).length = 0 →
        PyVal.str critical_recommendation ∉ rl) := by
  unfold calculate_farm_status
  refine ⟨rfl, rfl, rfl, _, rfl, ?_⟩
  intro h0 hmem
  rw [h0] at hmem
  norm_num at hmem
  revert hmem
  split_ifs <;> simp [critical_recommendation]

/-- The single alert the breached reading produces. -/
def low_soil_moisture_alert (now : String) : Alert :=
  { type := "low_threshold", sensor_type := "soil_moisture", value := 15,
    threshold := 20, message := "soil_moisture is below minimum threshold",
    severity := "warning", timestamp := now }

/-- C2 (amended): in a batch of 3 readings where exactly one reading has
sensor_type `soil_moisture` with value 15 (below the minimum threshold 20)
and the other two are valid and within all thresholds, the aggregated farm
status reports critical_alerts == 0 and warning_alerts == 1 — a below-min
breach produces a `warning` alert, not a `critical` one — and its
recommendations do NOT include the fixed "Address critical alerts
immediately" message. -/
theorem batch_low_soil_moisture_warning_status :
    ∀ (fromiso : String → Bool) (fromisoTs : String → Option Ts)
      (nowTs : Ts) (now : String) (mm : MMState)
      (w : Option (List (String × PyVal)))
      (pre post : List SensorData) (s0 : SensorData),
      s0.sensor_type = "soil_moisture" → s0.value = 15 →
      (∀ s ∈ pre ++ post,
        (validate_sensor_data fromiso (sensor_raw s)).1 = true ∧
        check_alerts default_alert_thresholds
          [(s.sensor_type, s.value)] now = []) →
      (pre ++ post).length = 2 →
      ∃ st, batch_farm_status fromiso fromisoTs nowTs now mm w
          (pre ++ s0 :: post) = .ok st ∧
        pyGet st "critical_alerts" = some (.intv 0) ∧
        pyGet st "warning_alerts" = some (.intv 1) ∧
        pyGet st "alert_count" = some (.intv 1) ∧
        ∃ rl, pyGet st "recommendations" = some (.list rl) ∧
          PyVal.str critical_recommendation ∉ rl := by
  intro fromiso fromisoTs nowTs now mm w pre post s0 hst hv hb _hlen
  have hvalid0 : (validate_sensor_data fromiso (sensor_raw s0)).1 = true := by
    simp [validate_sensor_data, missing_field_errors, type_errors,
      range_errors, timestamp_errors, sensor_raw, valid_types, hst, hv]
    norm_num
  have halert0 : check_alerts default_alert_thresholds
      [(s0.sensor_type, s0.value)] now =
      [low_soil_moisture_alert now] := by
    rw [hst, hv]
    rfl
  have hfil : (pre ++ s0 :: post).filter
      (fun s => (validate_sensor_data fromiso (sensor_raw s)).1) =
      pre ++ s0 :: post := by
    rw [List.filter_append, List.filter_cons,
      List.filter_eq_self.mpr
        (fun a ha => (hb a (List.mem_append_left post ha)).1),
      List.filter_eq_self.mpr
        (fun a ha => (hb a (List.mem_append_right pre ha)).1)]
    rw [if_pos hvalid0]
  have halerts : (pre ++ s0 :: post).flatMap
      (fun s => check_alerts default_alert_thresholds
        [(s.sensor_type, s.value)] now) =
      [low_soil_moisture_alert now] := by
    rw [List.flatMap_append, List.flatMap_cons,
      flatMap_nil_of _ pre (fun a ha => (hb a (List.mem_append_left post ha)).2),
      flatMap_nil_of _ post (fun a ha => (hb a (List.mem_append_right pre ha)).2),
      halert0]
    simp
  have main : ∀ (hd : List (String × Prediction))
      (tl : List (List (String × Prediction))),
      ∃ st, (Except.ok (calculate_farm_status (hd :: tl)
          [low_soil_moisture_alert now]) :
          Except PErr (List (String × PyVal))) = .ok st ∧
        pyGet st "critical_alerts" = some (.intv 0) ∧
        pyGet st "warning_alerts" = some (.intv 1) ∧
        pyGet st "alert_count" = some (.intv 1) ∧
        ∃ rl, pyGet st "recommendations" = some (.list rl) ∧
          PyVal.str critical_recommendation ∉ rl := by
    intro hd tl
    obtain ⟨hC, hW, hA, rl, hR, hNC⟩ :=
      calculate_farm_status_counters hd tl
        [low_soil_moisture_alert now]
    have hc0 : (([low_soil_moisture_alert now] : List Alert).filter
          (fun a => a.severity = "critical")).length = 0 := by
      simp [low_soil_moisture_alert]
    have hw1 : (([low_soil_moisture_alert now] : List Alert).filter
          (fun a => a.severity = "warning")).length = 1 := by
      simp [low_soil_moisture_alert]
    refine ⟨_, rfl, ?_, ?_, ?_, rl, hR, hNC hc0⟩
    · rw [hC, hc0]
      rfl
    · rw [hW, hw1]
      rfl
    · rw [hA]
      rfl
  rw [batch_farm_status_eq, hfil, halerts, List.map_append, List.map_cons]
  rcases hpp : pre.map
      (fun s => sensor_predictions mm [sensor_features s w]) with _ | ⟨p1, ps⟩
  · simp only [List.nil_append]
    exact main _ _
  · simp only [List.cons_append]
    exact main _ _

/-- Concrete batch fixtures: a farm clock, a `ModelManager` with no
artifacts on disk, and three readings of which only the first breaches a
threshold (soil moisture 15 < 20). -/
def cex_ts : Ts := ⟨12, 100, 4⟩

/-- `ModelManager` state with no model or scaler loaded. -/
def cex_mm : MMState := ⟨none, none, none, none, none, none, []⟩

/-- The breached reading: soil moisture 15. -/
def cex_s0 : SensorData := ⟨"m1", "soil_moisture", 15, cex_ts, none, []⟩

/-- An in-range temperature reading. -/
def cex_s1 : SensorData := ⟨"t1", "dht_temperature", 25, cex_ts, none, []⟩

/-- An in-range humidity reading. -/
def cex_s2 : SensorData := ⟨"h1", "dht_humidity", 60, cex_ts, none, []⟩

/-- C2 counterexample: for the concrete batch of 3 readings with exactly
one soil-moisture reading at 15 and the other two within thresholds, the
aggregated farm status reports critical_alerts = 0 (the claim demands 1)
and its recommendations are exactly the crop-health message — the
"Address critical alerts immediately" message is absent, because a
below-minimum breach is emitted with severity `warning`. -/
theorem batch_low_soil_moisture_no_critical_cex :
    (batch_farm_status (fun _ => true) (fun _ => none) cex_ts "T" cex_mm
        none [cex_s0, cex_s1, cex_s2]).map
      (fun st => (pyGet st "critical_alerts", pyGet st "recommendations")) =
      .ok (some (.intv 0),
        some (.list
          [.str "Crop health below optimal - check soil conditions"])) := by
  rw [batch_farm_status_eq]
  have hfil : [cex_s0, cex_s1, cex_s2].filter
      (fun s => (validate_sensor_data (fun _ => true) (sensor_raw s)).1) =
      [cex_s0, cex_s1, cex_s2] := rfl
  have halerts : [cex_s0, cex_s1, cex_s2].flatMap
      (fun s => check_alerts default_alert_thresholds
        [(s.sensor_type, s.value)] "T") = [low_soil_moisture_alert "T"] := rfl
  rw [hfil, halerts]
  simp only [List.map_cons, List.map_nil]
  have hg : ∀ fs : List (List PyVal), sensor_predictions cex_mm fs =
      [("irrigation",
        { predicted_value := 0, confidence := 1/2, model_name := "default",
          features_used := default_features_used }),
       ("crop_health",
        { predicted_value := 50, confidence := 1/2, model_name := "default",
          features_used := default_features_used }),
       ("yield",
        { predicted_value := 2000, confidence := 1/2, model_name := "default",
          features_used := default_features_used })] := fun _ => rfl
  rw [hg, hg, hg]
  simp [calculate_farm_status, predGet, pyGet, low_soil_moisture_alert,
    Except.map, pyRound1]
  norm_num

/-- C2 witness: the amended statement applied to the concrete batch
(temperature reading, breached soil-moisture reading, humidity reading). -/
theorem batch_low_soil_moisture_warning_status_witness :
    ∃ st, batch_farm_status (fun _ => true) (fun _ => none) cex_ts "T" cex_mm
        none ([cex_s1] ++ cex_s0 :: [cex_s2]) = .ok st ∧
      pyGet st "critical_alerts" = some (.intv 0) ∧
      pyGet st "warning_alerts" = some (.intv 1) ∧
      pyGet st "alert_count" = some (.intv 1) ∧
      ∃ rl, pyGet st "recommendations" = some (.list rl) ∧
        PyVal.str critical_recommendation ∉ rl := by
  apply batch_low_soil_moisture_warning_status (fun _ => true) (fun _ => none)
    cex_ts "T" cex_mm none [cex_s1] [cex_s2] cex_s0 rfl rfl
  · intro s hs
    simp only [List.cons_append, List.nil_append, List.mem_cons,
      List.not_mem_nil, or_false] at hs
    rcases hs with rfl | rfl
    · exact ⟨rfl, rfl⟩
    · exact ⟨rfl, rfl⟩
  · rfl

end Aquaroot
